import Mathlib

/-!
Shallow embedding of the bus-seat reservation service (`src/app.py`).

The database-as-a-service backend is modelled as an explicit record of
tables (lists of rows); each request handler becomes a pure function from
the request data and the database state to an outcome and a new state.
Machine-level details (session cookies, HTML rendering, the Supabase
client) are out of scope; handlers are modelled after authentication,
with the caller identity passed explicitly, mirroring exactly the reads,
validations and writes the Python code performs and their order.
-/

namespace BusApp

/-- Booking status, the `status` column of the `bookings` table. -/
inductive BStatus where
  | confirmed
  | cancelled
deriving DecidableEq

/-- A row of the `users` table. -/
structure UserRow where
  user_id : Nat
  student_id : String
  year : Nat
  name : String
  email : String
  phone : String
  password_hash : String
  is_admin : Bool
deriving DecidableEq

/-- A row of the `buses` table.  Buses are reference data: no handler in
`app.py` ever writes this table, so `capacity` is modelled as a count. -/
structure Bus where
  bus_id : Nat
  bus_number : String
  capacity : Nat
  route_id : Nat
deriving DecidableEq

/-- A row of the `schedules` table.  `available_seats` is an `Int`
because the handlers write values computed from unchecked form input
(`int(request.form vals)`), which can be negative. -/
structure Schedule where
  schedule_id : Nat
  bus_id : Nat
  available_seats : Int
  departure_date : String
  departure_time : String
deriving DecidableEq

/-- A row of the `bookings` table.  `booking_time` is the row creation
timestamp (seconds; the store default `now()`). -/
structure Booking where
  booking_id : Nat
  user_id : Nat
  schedule_id : Nat
  seat_number : Int
  status : BStatus
  booking_time : Int
deriving DecidableEq

/-- The relational store: the tables the handlers read and write, plus
the serial-column counters for generated primary keys. -/
structure DB where
  users : List UserRow
  buses : List Bus
  schedules : List Schedule
  bookings : List Booking
  next_user_id : Nat
  next_schedule_id : Nat
  next_booking_id : Nat
deriving DecidableEq

/-! ### String helpers mirroring the Python predicates -/

/-- Is the first list a prefix of the second (character lists)? -/
def isPrefixChars : List Char → List Char → Bool
  | [], _ => true
  | _ :: _, [] => false
  | c :: cs, d :: ds => c == d && isPrefixChars cs ds

/-- Does the needle occur as a contiguous run inside the haystack?
Mirrors the Python substring test `needle in hay`. -/
def containsChars (needle : List Char) : List Char → Bool
  | [] => isPrefixChars needle []
  | d :: tl => isPrefixChars needle (d :: tl) || containsChars needle tl

/-- Python `needle in hay` on strings: substring containment. -/
def strContains (hay needle : String) : Bool :=
  containsChars needle.toList hay.toList

/-- Python `s.startswith(pre)`. -/
def strStartsWith (s pre : String) : Bool :=
  isPrefixChars pre.toList s.toList

/-- Does the string end with the given suffix?  (Used only to state the
spec-side reading of the email rule; the code itself uses containment.) -/
def strEndsWith (s suffix : String) : Bool :=
  isPrefixChars suffix.toList.reverse s.toList.reverse

/-! ### Registration validation (`register`, app.py lines 106-181) -/

/-- The required campus mail domain checked by `register`. -/
def campusDomain : String := "@student.gitam.edu"

/-- The fixed special-character set of the password policy. -/
def specialChars : List Char := "@#$%&*!?".toList

/-- The password complexity check of `register` (app.py lines 129-135):
an uppercase letter, a digit, a special character and length at least 8,
tested in that order. -/
def passwordOk (pw : String) : Bool :=
  pw.toList.any Char.isUpper &&
  pw.toList.any Char.isDigit &&
  pw.toList.any (fun c => decide (c ∈ specialChars)) &&
  decide (8 ≤ pw.toList.length)

/-- Year-4 student id pattern, Python `re.fullmatch("HU22[A-Z]{4}[0-9]{7}", sid)`. -/
def matchesYearFour (sid : String) : Bool :=
  match sid.toList with
  | 'H' :: 'U' :: '2' :: '2' :: rest =>
    decide (rest.length = 11) &&
    (rest.take 4).all (fun c => decide ('A' ≤ c) && decide (c ≤ 'Z')) &&
    (rest.drop 4).all Char.isDigit
  | _ => false

def yearOnePre : String := "2025"
def yearTwoPre : String := "2024"
def yearThreePre : String := "2023"

/-- Student-id format check of `register` (app.py lines 137-147). -/
def validStudentId (year : Nat) (sid : String) : Bool :=
  if year = 1 ∨ year = 2 ∨ year = 3 then
    sid.toList.all Char.isDigit && decide (sid.toList.length = 10) &&
    ((decide (year = 1) && strStartsWith sid yearOnePre) ||
     (decide (year = 2) && strStartsWith sid yearTwoPre) ||
     (decide (year = 3) && strStartsWith sid yearThreePre))
  else if year = 4 then
    matchesYearFour sid
  else
    false

/-- Tag used by the modelled password hash. -/
def pwHashTag : String := "pbkdf2:"

/-- Model of the external `werkzeug` password hash (an out-of-scope
collaborator per the spec): an injective tagging of the password. -/
def pwHash (p : String) : String := String.append pwHashTag p

/-- The form fields of a registration request (already parsed: the
handler does `int(request.form [year])` and strips the student id). -/
structure RegRequest where
  student_id : String
  name : String
  email : String
  phone : String
  password : String
  year : Nat
deriving DecidableEq

inductive RegResult where
  | missingFields
  | badEmail
  | badPhone
  | badPassword
  | badStudentId
  | duplicate
  | ok
deriving DecidableEq

/-- The `register` handler (app.py lines 106-181): validations in source
order, duplicate check on student id or email, then the insert. -/
def register (req : RegRequest) (db : DB) : RegResult × DB :=
  if req.student_id = "" ∨ req.name = "" ∨ req.year = 0 ∨ req.email = "" ∨
     req.phone = "" ∨ req.password = "" then
    (.missingFields, db)
  else if !(strContains req.email campusDomain) then
    (.badEmail, db)
  else if !(decide (req.phone.toList.length = 10) && req.phone.toList.all Char.isDigit) then
    (.badPhone, db)
  else if !(passwordOk req.password) then
    (.badPassword, db)
  else if !(validStudentId req.year req.student_id) then
    (.badStudentId, db)
  else if ∃ u ∈ db.users, u.student_id = req.student_id ∨ u.email = req.email then
    (.duplicate, db)
  else
    (.ok, { db with
      users := db.users ++
        [⟨db.next_user_id, req.student_id, req.year, req.name, req.email,
          req.phone, pwHash req.password, false⟩],
      next_user_id := db.next_user_id + 1 })

/-! ### Booking confirmation (`confirm_booking`, app.py lines 477-525) -/

inductive ConfirmResult where
  | scheduleNotFound
  | backendError
  | invalidSeat
  | seatUnavailable
  | ok
deriving DecidableEq

/-- The `confirm_booking` handler (app.py lines 477-525), for a
logged-in student `uid`.  Reads the schedule (joined with its bus for
the capacity), validates the seat range, then rejects when a confirmed
booking for the (schedule, seat) pair exists or the cached counter is
non-positive; otherwise inserts a confirmed booking row and writes the
counter to the value it read minus one. -/
def confirm_booking (uid sid : Nat) (seat now : Int) (db : DB) : ConfirmResult × DB :=
  match db.schedules.find? (fun s => decide (s.schedule_id = sid)) with
  | none => (.scheduleNotFound, db)
  | some sched =>
    match db.buses.find? (fun b => decide (b.bus_id = sched.bus_id)) with
    | none => (.backendError, db)
    | some bus =>
      if seat < 1 ∨ (bus.capacity : Int) < seat then
        (.invalidSeat, db)
      else if (∃ b ∈ db.bookings, b.schedule_id = sid ∧ b.seat_number = seat ∧
                 b.status = BStatus.confirmed) ∨ sched.available_seats ≤ 0 then
        (.seatUnavailable, db)
      else
        (.ok, { db with
          bookings := db.bookings ++
            [⟨db.next_booking_id, uid, sid, seat, BStatus.confirmed, now⟩],
          schedules := db.schedules.map (fun s =>
            if s.schedule_id = sid then
              { s with available_seats := sched.available_seats - 1 }
            else s),
          next_booking_id := db.next_booking_id + 1 })

/-! ### Booking cancellation (`cancel_booking`, app.py lines 530-565) -/

inductive CancelResult where
  | notFound
  | tooEarly
  | backendError
  | ok
deriving DecidableEq

/-- The fixed minimum hold period before cancellation, in seconds
(`timedelta(minutes=2)` in app.py line 549). -/
def holdPeriod : Int := 120

/-- The `cancel_booking` handler (app.py lines 530-565), for logged-in
student `uid` at current time `now`.  The lookup filters on booking id
and owner only (the Python query has no status filter); after the hold
period the row is marked cancelled and the schedule counter is written
to the value read plus one.  When the schedule row is missing the
Python code raises after the status update and before the increment
(`.data[0]` on an empty result), so the model keeps that partial write. -/
def cancel_booking (uid bid : Nat) (now : Int) (db : DB) : CancelResult × DB :=
  match db.bookings.find? (fun b => decide (b.booking_id = bid ∧ b.user_id = uid)) with
  | none => (.notFound, db)
  | some booking =>
    if now - booking.booking_time < holdPeriod then
      (.tooEarly, db)
    else
      match db.schedules.find? (fun s => decide (s.schedule_id = booking.schedule_id)) with
      | none =>
        (.backendError, { db with
          bookings := db.bookings.map (fun b =>
            if b.booking_id = bid then { b with status := BStatus.cancelled } else b) })
      | some sched =>
        (.ok, { db with
          bookings := db.bookings.map (fun b =>
            if b.booking_id = bid then { b with status := BStatus.cancelled } else b),
          schedules := db.schedules.map (fun s =>
            if s.schedule_id = booking.schedule_id then
              { s with available_seats := sched.available_seats + 1 }
            else s) })

/-! ### Admin schedule operations (app.py lines 604-777) -/

inductive SlotResult where
  | unauthorized
  | busNotFound
  | tooManySeats
  | ok
deriving DecidableEq

/-- The `create_slot` handler (app.py lines 604-656): rejects when the
named bus is missing or `total_seats` exceeds the bus capacity, then
inserts a schedule whose `available_seats` is the raw form value.
There is no lower bound on `total_seats`. -/
def create_slot (isAdmin : Bool) (bus_number dep_date dep_time : String)
    (total_seats : Int) (db : DB) : SlotResult × DB :=
  if !isAdmin then (.unauthorized, db)
  else
    match db.buses.find? (fun b => decide (b.bus_number = bus_number)) with
    | none => (.busNotFound, db)
    | some bus =>
      if (bus.capacity : Int) < total_seats then
        (.tooManySeats, db)
      else
        (.ok, { db with
          schedules := db.schedules ++
            [⟨db.next_schedule_id, bus.bus_id, total_seats, dep_date, dep_time⟩],
          next_schedule_id := db.next_schedule_id + 1 })

/-- The `cancel_schedule` handler (app.py lines 693-705): a single
delete on the `schedules` table filtered by schedule id; the `bookings`
table is not touched. -/
def cancel_schedule (isAdmin : Bool) (sid : Nat) (db : DB) : DB :=
  if isAdmin then
    { db with schedules := db.schedules.filter (fun s => !decide (s.schedule_id = sid)) }
  else db

inductive EditResult where
  | unauthorized
  | busNotFound
  | ok
deriving DecidableEq

/-- The `edit_schedule` handler (app.py lines 710-777): re-targets the
schedule to the named bus and overwrites `available_seats` with the raw
form value, with no bounds check of any kind. -/
def edit_schedule (isAdmin : Bool) (sid : Nat) (bus_number dep_date dep_time : String)
    (total_seats : Int) (db : DB) : EditResult × DB :=
  if !isAdmin then (.unauthorized, db)
  else
    match db.buses.find? (fun b => decide (b.bus_number = bus_number)) with
    | none => (.busNotFound, db)
    | some bus =>
      (.ok, { db with
        schedules := db.schedules.map (fun s =>
          if s.schedule_id = sid then
            { s with bus_id := bus.bus_id, available_seats := total_seats,
                     departure_date := dep_date, departure_time := dep_time }
          else s) })

/-! ### Seat-picker view (`book_seat`, app.py lines 417-472) -/

inductive BookSeatResult where
  | alreadyBooked
  | noSeats
  | backendError
  | ok (available : List Int)
deriving DecidableEq

/-- The `book_seat` view (app.py lines 417-472): rejects when the caller
already holds a confirmed booking on the schedule, then offers the range
[1, capacity] minus the confirmed seat numbers.  Read-only. -/
def book_seat (uid sid : Nat) (db : DB) : BookSeatResult :=
  if ∃ b ∈ db.bookings, b.user_id = uid ∧ b.schedule_id = sid ∧
       b.status = BStatus.confirmed then
    .alreadyBooked
  else
    match db.schedules.find? (fun s => decide (s.schedule_id = sid)) with
    | none => .noSeats
    | some sched =>
      if sched.available_seats ≤ 0 then .noSeats
      else
        match db.buses.find? (fun b => decide (b.bus_id = sched.bus_id)) with
        | none => .backendError
        | some bus =>
          let booked := (db.bookings.filter (fun b =>
            decide (b.schedule_id = sid ∧ b.status = BStatus.confirmed))).map
              (fun b => b.seat_number)
          .ok (((List.range bus.capacity).map (fun i => (i : Int) + 1)).filter
            (fun i => !decide (i ∈ booked)))

/-! ### Ticket view (`view_ticket`, app.py lines 821-858) -/

/-- The data the ticket page renders, flattened from the joined rows. -/
structure Ticket where
  booking_id : Nat
  student_id : String
  name : String
  email : String
  phone : String
  seat_number : Int
  bus_number : String
  departure_date : String
  departure_time : String
  booking_time : Int
deriving DecidableEq

inductive ViewTicketResult where
  | ok (t : Ticket)
  | notFound
  | backendError
deriving DecidableEq

/-- The `view_ticket` handler (app.py lines 821-858): a single query
filtered on booking id, owner and confirmed status; an empty result
flashes the not-found message and redirects with no booking data,
otherwise the joined rows are flattened into the rendered ticket. -/
def view_ticket (uid bid : Nat) (db : DB) : ViewTicketResult :=
  match db.bookings.find? (fun b =>
      decide (b.booking_id = bid ∧ b.user_id = uid ∧ b.status = BStatus.confirmed)) with
  | none => .notFound
  | some booking =>
    match db.users.find? (fun u => decide (u.user_id = booking.user_id)) with
    | none => .backendError
    | some u =>
      match db.schedules.find? (fun s => decide (s.schedule_id = booking.schedule_id)) with
      | none => .backendError
      | some sched =>
        match db.buses.find? (fun b => decide (b.bus_id = sched.bus_id)) with
        | none => .backendError
        | some bus =>
          .ok ⟨booking.booking_id, u.student_id, u.name, u.email, u.phone,
               booking.seat_number, bus.bus_number, sched.departure_date,
               sched.departure_time, booking.booking_time⟩

/-! ### Sequential traces of the mutating operations -/

/-- One mutating request of the service, with its form data.  Auth flags
are fixed to the authorized value: an unauthorized request leaves the
store untouched, so restricting to authorized ones loses no reachable
state. -/
inductive Op where
  | confirm (uid sid : Nat) (seat now : Int)
  | cancel (uid bid : Nat) (now : Int)
  | cancelSchedule (sid : Nat)
  | createSlot (bus_number dep_date dep_time : String) (total_seats : Int)
  | editSchedule (sid : Nat) (bus_number dep_date dep_time : String) (total_seats : Int)
  | registerUser (req : RegRequest)
deriving DecidableEq

/-- The store after one request (the outcome is discarded). -/
def applyOp (op : Op) (db : DB) : DB :=
  match op with
  | .confirm uid sid seat now => (confirm_booking uid sid seat now db).2
  | .cancel uid bid now => (cancel_booking uid bid now db).2
  | .cancelSchedule sid => cancel_schedule true sid db
  | .createSlot bn d t ts => (create_slot true bn d t ts db).2
  | .editSchedule sid bn d t ts => (edit_schedule true sid bn d t ts db).2
  | .registerUser req => (register req db).2

/-- The store after a sequential trace of requests. -/
def run (ops : List Op) (db : DB) : DB :=
  match ops with
  | [] => db
  | op :: rest => run rest (applyOp op db)

/-- The student-facing booking operations (the spec's sequential
invariant concerns these two mutations). -/
def isStudentOp : Op → Bool
  | .confirm _ _ _ _ => true
  | .cancel _ _ _ => true
  | _ => false

/-! ### State predicates used by the claims -/

/-- No two distinct confirmed bookings share a (schedule, seat) pair. -/
abbrev noClash (b1 b2 : Booking) : Prop :=
  ¬(b1.status = BStatus.confirmed ∧ b2.status = BStatus.confirmed ∧
    b1.schedule_id = b2.schedule_id ∧ b1.seat_number = b2.seat_number)

/-- At most one confirmed booking per (schedule, seat) pair. -/
abbrev seatUnique (db : DB) : Prop := db.bookings.Pairwise noClash

/-- No two distinct confirmed bookings share a (user, schedule) pair. -/
abbrev noUserClash (b1 b2 : Booking) : Prop :=
  ¬(b1.status = BStatus.confirmed ∧ b2.status = BStatus.confirmed ∧
    b1.user_id = b2.user_id ∧ b1.schedule_id = b2.schedule_id)

/-- At most one confirmed booking per (user, schedule) pair. -/
abbrev userSchedUnique (db : DB) : Prop := db.bookings.Pairwise noUserClash

/-- Every schedule counter is non-negative. -/
abbrev schedNonneg (db : DB) : Prop := ∀ s ∈ db.schedules, 0 ≤ s.available_seats

/-- Every schedule counter lies within [0, capacity of its bus]. -/
abbrev availInRange (db : DB) : Prop :=
  ∀ s ∈ db.schedules, ∀ bus ∈ db.buses, bus.bus_id = s.bus_id →
    0 ≤ s.available_seats ∧ s.available_seats ≤ (bus.capacity : Int)

/-- Number of confirmed bookings of a schedule. -/
abbrev confirmedCount (db : DB) (sid : Nat) : Nat :=
  (db.bookings.filter (fun b =>
    decide (b.schedule_id = sid ∧ b.status = BStatus.confirmed))).length

/-- A consistent store, as the spec intends: both uniqueness invariants,
counters in range, and each counter accounting exactly for the confirmed
bookings of its schedule against the bus capacity. -/
abbrev consistent (db : DB) : Prop :=
  seatUnique db ∧ userSchedUnique db ∧ availInRange db ∧
  ∀ s ∈ db.schedules, ∀ bus ∈ db.buses, bus.bus_id = s.bus_id →
    s.available_seats + (confirmedCount db s.schedule_id : Int) = (bus.capacity : Int)

/-- Every booking row resolves its joins (its user and its schedule
exist) and every schedule resolves its bus: the referential integrity
the external store is relied upon to keep. -/
abbrev wellFormed (db : DB) : Prop :=
  (∀ b ∈ db.bookings,
    (∃ u ∈ db.users, u.user_id = b.user_id) ∧
    (∃ s ∈ db.schedules, s.schedule_id = b.schedule_id)) ∧
  (∀ s ∈ db.schedules, ∃ bus ∈ db.buses, bus.bus_id = s.bus_id)

/-! ### Concrete states used by witnesses and counterexamples -/

/-- The bus number of the seeded sample bus. -/
def busOne : String := "BUS001"

/-- A departure date used in concrete requests. -/
def depD : String := "2025-01-02"

/-- A departure time used in concrete requests. -/
def depT : String := "09:00"

/-- The spec's example password without a special character. -/
def pwNoSpecial : String := "Abc12345"

/-- The spec's example password meeting the whole policy. -/
def pwGood : String := "Abc123@5"

/-- A bus with 40 seats, as seeded by `init_db`. -/
def exBus : Bus := ⟨1, "BUS001", 40, 1⟩

/-- A fresh schedule of `exBus` with all 40 seats available. -/
def exSched : Schedule := ⟨1, 1, 40, "2025-01-01", "08:00"⟩

/-- A consistent store: one bus, one fresh schedule, no bookings. -/
def exDb : DB := ⟨[], [exBus], [exSched], [], 1, 2, 1⟩

/-- A one-seat bus. -/
def oneSeatBus : Bus := ⟨1, "BUS001", 1, 1⟩

/-- A consistent store whose single schedule has exactly one seat. -/
def oneSeatDb : DB := ⟨[], [oneSeatBus], [⟨1, 1, 1, "2025-01-01", "08:00"⟩], [], 1, 2, 1⟩

/-- A two-seat bus. -/
def twoSeatBus : Bus := ⟨1, "BUS001", 2, 1⟩

/-- A consistent store whose single schedule has exactly two seats. -/
def twoSeatDb : DB := ⟨[], [twoSeatBus], [⟨1, 1, 2, "2025-01-01", "08:00"⟩], [], 1, 2, 1⟩

/-- A store holding an already-cancelled booking (id 1, owner 1, seat 1,
booked at time 0) on a one-seat schedule whose counter is back to 1. -/
def cancelledDb : DB :=
  ⟨[], [oneSeatBus], [⟨1, 1, 1, "2025-01-01", "08:00"⟩],
   [⟨1, 1, 1, 1, BStatus.cancelled, 0⟩], 1, 2, 2⟩

/-- The schedule of `seatTakenDb`: 39 of 40 seats left. -/
def exSched39 : Schedule := ⟨1, 1, 39, "2025-01-01", "08:00"⟩

/-- A store where seat 3 of schedule 1 already has a confirmed booking. -/
def seatTakenDb : DB :=
  ⟨[], [exBus], [exSched39], [⟨1, 1, 1, 3, BStatus.confirmed, 0⟩], 1, 2, 2⟩

/-- A registered student, owner of the booking in `ticketDb`. -/
def otherUser : UserRow :=
  ⟨2, "2025123456", 1, "Bea", "b@student.gitam.edu", "9876543210", "h", false⟩

/-- A store where user 2 holds the only (confirmed) booking. -/
def ticketDb : DB :=
  ⟨[otherUser], [oneSeatBus], [⟨1, 1, 0, "2025-01-01", "08:00"⟩],
   [⟨1, 2, 1, 1, BStatus.confirmed, 0⟩], 3, 2, 2⟩

/-- The one-seat schedule after its seat was confirmed. -/
def oneSeatSchedAfter : Schedule := ⟨1, 1, 0, "2025-01-01", "08:00"⟩

/-- The booking created by user 1 confirming seat 1 on `twoSeatDb`. -/
def bk1 : Booking := ⟨1, 1, 1, 1, BStatus.confirmed, 0⟩

/-- The booking created by user 2 confirming seat 2 on `twoSeatDb`. -/
def bk2 : Booking := ⟨2, 2, 1, 2, BStatus.confirmed, 0⟩

/-- An email that contains the campus domain but does not end with it. -/
def evilEmail : String := "a@student.gitam.edu.in"

/-- A registration request that is valid in every respect except that
its email merely contains (and does not end with) the campus domain. -/
def sneakyReq : RegRequest :=
  ⟨"2025123456", "Asha", evilEmail, "9876543210", "Abc123@5", 1⟩

/-- A registration request whose email lacks the campus domain. -/
def outsiderReq : RegRequest :=
  ⟨"2025123456", "Asha", "a@gmail.com", "9876543210", "Abc123@5", 1⟩


/-! ### Claim C7 -/

/-- C7: the registration password check accepts a password exactly when
it has length at least 8, contains an uppercase letter, contains a
digit, and contains a character of the fixed special set; in particular
the password Abc12345 is rejected and Abc123@5 is accepted. -/
theorem c7_theorem :
    (∀ pw : String, passwordOk pw = true ↔
      (8 ≤ pw.toList.length ∧ (∃ c ∈ pw.toList, c.isUpper = true) ∧
       (∃ c ∈ pw.toList, c.isDigit = true) ∧ (∃ c ∈ pw.toList, c ∈ specialChars))) ∧
    passwordOk pwNoSpecial = false ∧ passwordOk pwGood = true := by
  refine ⟨fun pw => ?_, by decide, by decide⟩
  simp only [passwordOk, Bool.and_eq_true, List.any_eq_true, decide_eq_true_eq]
  tauto

/-! ### Claim C6 -/

/-- C6 (amended): a registration request whose email does not contain
the campus domain as a substring is rejected and inserts no user row.
(The Python check is substring containment, not an ends-with check.) -/
theorem c6_theorem (req : RegRequest) (db : DB)
    (h : strContains req.email campusDomain = false) :
    (register req db).1 ≠ RegResult.ok ∧ (register req db).2 = db := by
  unfold register
  by_cases h0 : req.student_id = "" ∨ req.name = "" ∨ req.year = 0 ∨ req.email = "" ∨
      req.phone = "" ∨ req.password = ""
  · rw [if_pos h0]
    exact ⟨by simp, rfl⟩
  · rw [if_neg h0, if_pos (by rw [h]; rfl)]
    exact ⟨by simp, rfl⟩

/-- C6 (witness): a request with a plain outside email is rejected and
the store is unchanged. -/
theorem c6_witness :
    (register outsiderReq exDb).1 ≠ RegResult.ok ∧ (register outsiderReq exDb).2 = exDb :=
  c6_theorem outsiderReq exDb (by decide)

/-- C6 (counterexample to the claim as stated): `sneakyReq` has an
email that does NOT end with the campus domain, yet registration
succeeds and a user row is inserted, because the code only tests
substring containment. -/
theorem c6_counterexample :
    strEndsWith sneakyReq.email campusDomain = false ∧
    (register sneakyReq exDb).1 = RegResult.ok ∧
    (register sneakyReq exDb).2.users.length = 1 := by decide

/-! ### Claim C5 -/

/-- C5: whenever a confirmed booking for (schedule, seat) already
exists, a confirm-booking request for that pair is rejected and leaves
the store (both the booking rows and every counter) unchanged. -/
theorem c5_theorem (uid sid : Nat) (seat now : Int) (db : DB)
    (h : ∃ b ∈ db.bookings, b.schedule_id = sid ∧ b.seat_number = seat ∧
      b.status = BStatus.confirmed) :
    (confirm_booking uid sid seat now db).1 ≠ ConfirmResult.ok ∧
    (confirm_booking uid sid seat now db).2 = db := by
  unfold confirm_booking
  split
  · exact ⟨by simp, rfl⟩
  · split
    · exact ⟨by simp, rfl⟩
    · split
      · exact ⟨by simp, rfl⟩
      · rw [if_pos (Or.inl h)]
        exact ⟨by simp, rfl⟩

/-- C5 (witness): re-confirming the taken seat 3 is rejected without
any change of state. -/
theorem c5_witness :
    (confirm_booking 9 1 3 0 seatTakenDb).1 ≠ ConfirmResult.ok ∧
    (confirm_booking 9 1 3 0 seatTakenDb).2 = seatTakenDb :=
  c5_theorem 9 1 3 0 seatTakenDb (by decide)

/-! ### Claim C8 -/

/-- C8: an admin cancel-schedule request deletes exactly the schedule
rows with the given id: bookings, users and buses are untouched, every
surviving schedule is an unchanged row of the old table, and every
other schedule survives. -/
theorem c8_theorem (sid : Nat) (db : DB) :
    (cancel_schedule true sid db).bookings = db.bookings ∧
    (cancel_schedule true sid db).users = db.users ∧
    (cancel_schedule true sid db).buses = db.buses ∧
    (∀ s ∈ (cancel_schedule true sid db).schedules, s.schedule_id ≠ sid ∧ s ∈ db.schedules) ∧
    (∀ s ∈ db.schedules, s.schedule_id ≠ sid → s ∈ (cancel_schedule true sid db).schedules) := by
  unfold cancel_schedule
  rw [if_pos rfl]
  refine ⟨rfl, rfl, rfl, ?_, ?_⟩
  · intro s hs
    rw [List.mem_filter] at hs
    refine ⟨by simpa using hs.2, hs.1⟩
  · intro s hs hne
    rw [List.mem_filter]
    exact ⟨hs, by simpa using hne⟩

/-- C8 (witness): deleting schedule 2 (absent) keeps the bookings and
keeps schedule 1. -/
theorem c8_witness :
    (cancel_schedule true 2 seatTakenDb).bookings = seatTakenDb.bookings ∧
    exSched39 ∈ (cancel_schedule true 2 seatTakenDb).schedules :=
  ⟨(c8_theorem 2 seatTakenDb).1,
   (c8_theorem 2 seatTakenDb).2.2.2.2 exSched39 (by decide) (by decide)⟩

/-! ### Claim C10 -/

/-- C10: an admin create-slot request is rejected by validation exactly
when the named bus is missing or the requested seat count exceeds the
bus capacity; there is no lower bound, so any non-positive seat count
passes validation and inserts a schedule whose counter is that
non-positive value. -/
theorem c10_theorem (bn dd tt : String) (seats : Int) (db : DB) :
    ((create_slot true bn dd tt seats db).1 ≠ SlotResult.ok ↔
      (db.buses.find? (fun b => decide (b.bus_number = bn)) = none ∨
       ∃ bus, db.buses.find? (fun b => decide (b.bus_number = bn)) = some bus ∧
         (bus.capacity : Int) < seats)) ∧
    (∀ bus, db.buses.find? (fun b => decide (b.bus_number = bn)) = some bus → seats ≤ 0 →
      (create_slot true bn dd tt seats db).1 = SlotResult.ok ∧
      (create_slot true bn dd tt seats db).2.schedules =
        db.schedules ++ [⟨db.next_schedule_id, bus.bus_id, seats, dd, tt⟩]) := by
  unfold create_slot
  rw [if_neg (by decide : ¬((!true) = true))]
  split
  · rename_i hb
    refine ⟨⟨fun _ => Or.inl hb, fun _ => by simp⟩, ?_⟩
    intro bus hbus
    rw [hb] at hbus
    exact absurd hbus (by simp)
  · rename_i bus hb
    by_cases hc : (bus.capacity : Int) < seats
    · rw [if_pos hc]
      refine ⟨⟨fun _ => Or.inr ⟨bus, hb, hc⟩, fun _ => by simp⟩, ?_⟩
      intro bus' hbus' hseats
      rw [hb] at hbus'
      have hb' : bus' = bus := by
        injection hbus' with h'
        exact h'.symm
      subst hb'
      omega
    · rw [if_neg hc]
      refine ⟨⟨fun hne => absurd rfl hne, ?_⟩, ?_⟩
      · rintro (h' | ⟨bus', hbus', hcap⟩)
        · rw [hb] at h'
          exact absurd h' (by simp)
        · rw [hb] at hbus'
          have hb' : bus' = bus := by
            injection hbus' with h'
            exact h'.symm
          subst hb'
          exact absurd hcap hc
      · intro bus' hbus' _
        rw [hb] at hbus'
        have hb' : bus' = bus := by
          injection hbus' with h'
          exact h'.symm
        subst hb'
        exact ⟨rfl, rfl⟩

/-- C10 (witness): creating a slot on the seeded bus with seat count -1
passes validation and stores -1 as the available-seat counter. -/
theorem c10_witness :
    (create_slot true busOne depD depT (-1) exDb).1 = SlotResult.ok :=
  ((c10_theorem busOne depD depT (-1) exDb).2 exBus (by decide) (by decide)).1

/-! ### Claim C3 -/

/-- C3 (code bug): the cancellation handler never re-checks the booking
status.  In `cancelledDb` the only booking is already cancelled, yet the
request succeeds and increments the one-seat schedule's counter from 1
to 2 — the claim (and app.py's own validation list in the spec) say an
already-cancelled booking must be rejected with no row changed. -/
theorem c3_theorem :
    cancelledDb.bookings = [⟨1, 1, 1, 1, BStatus.cancelled, 0⟩] ∧
    (cancel_booking 1 1 200 cancelledDb).1 = CancelResult.ok ∧
    (cancel_booking 1 1 200 cancelledDb).2.schedules =
      [⟨1, 1, 2, "2025-01-01", "08:00"⟩] := by decide

/-! ### Claim C1 -/

/-- Writing a new counter value to the rows of one schedule id moves
the found row along: lookups in the updated table return the found row
with the new counter. -/
theorem find?_setAvail (l : List Schedule) (sid : Nat) (v : Int) (sched : Schedule)
    (hs : l.find? (fun s => decide (s.schedule_id = sid)) = some sched) :
    (l.map (fun s => if s.schedule_id = sid then { s with available_seats := v } else s)).find?
      (fun s => decide (s.schedule_id = sid)) =
      some { sched with available_seats := v } := by
  induction l with
  | nil => simp at hs
  | cons a tl ih =>
    rw [List.map_cons]
    by_cases ha : a.schedule_id = sid
    · rw [List.find?_cons_of_pos _ (by simpa using ha)] at hs
      have hae : a = sched := by injection hs
      subst hae
      rw [if_pos ha, List.find?_cons_of_pos _ (by simpa using ha)]
    · rw [List.find?_cons_of_neg _ (by simpa using ha)] at hs
      rw [if_neg ha, List.find?_cons_of_neg _ (by simpa using ha)]
      exact ih hs

/-- C1: for a logged-in student confirming seat `seat` on an existing
schedule (whose bus exists), the request succeeds exactly when the seat
number is within [1, capacity], no confirmed booking for the
(schedule, seat) pair exists, and the cached counter is positive; on
success exactly one confirmed booking row is appended and the schedule's
counter becomes its prior value minus one; on any rejection the store is
unchanged. -/
theorem c1_theorem (uid sid : Nat) (seat now : Int) (db : DB) (sched : Schedule) (bus : Bus)
    (hs : db.schedules.find? (fun s => decide (s.schedule_id = sid)) = some sched)
    (hb : db.buses.find? (fun b => decide (b.bus_id = sched.bus_id)) = some bus) :
    ((confirm_booking uid sid seat now db).1 = ConfirmResult.ok ↔
      (1 ≤ seat ∧ seat ≤ (bus.capacity : Int) ∧
       (∀ b ∈ db.bookings, ¬(b.schedule_id = sid ∧ b.seat_number = seat ∧
          b.status = BStatus.confirmed)) ∧
       0 < sched.available_seats)) ∧
    ((confirm_booking uid sid seat now db).1 = ConfirmResult.ok →
      (confirm_booking uid sid seat now db).2.bookings =
        db.bookings ++ [⟨db.next_booking_id, uid, sid, seat, BStatus.confirmed, now⟩] ∧
      (confirm_booking uid sid seat now db).2.schedules.find?
          (fun s => decide (s.schedule_id = sid)) =
        some { sched with available_seats := sched.available_seats - 1 }) ∧
    ((confirm_booking uid sid seat now db).1 ≠ ConfirmResult.ok →
      (confirm_booking uid sid seat now db).2 = db) := by
  unfold confirm_booking
  split
  · rename_i hf
    rw [hs] at hf
    exact absurd hf (by simp)
  · rename_i sched' hf
    rw [hs] at hf
    injection hf with hse
    subst hse
    split
    · rename_i hf2
      rw [hb] at hf2
      exact absurd hf2 (by simp)
    · rename_i bus' hf2
      rw [hb] at hf2
      injection hf2 with hbe
      subst hbe
      by_cases h1 : seat < 1 ∨ (bus.capacity : Int) < seat
      · rw [if_pos h1]
        refine ⟨⟨fun hok => absurd hok (by simp), fun hr => ?_⟩,
          fun hok => absurd hok (by simp), fun _ => rfl⟩
        exfalso
        obtain ⟨ha1, ha2, _, _⟩ := hr
        omega
      · rw [if_neg h1]
        by_cases h2 : (∃ b ∈ db.bookings, b.schedule_id = sid ∧ b.seat_number = seat ∧
            b.status = BStatus.confirmed) ∨ sched.available_seats ≤ 0
        · rw [if_pos h2]
          refine ⟨⟨fun hok => absurd hok (by simp), fun hr => ?_⟩,
            fun hok => absurd hok (by simp), fun _ => rfl⟩
          exfalso
          obtain ⟨_, _, hno, hpos⟩ := hr
          rcases h2 with h2a | h2b
          · obtain ⟨b, hbm, hbp⟩ := h2a
            exact hno b hbm hbp
          · omega
        · rw [if_neg h2]
          push_neg at h1 h2
          refine ⟨⟨fun _ => ⟨by omega, by omega,
            fun b hbm hc => h2.1 b hbm hc.1 hc.2.1 hc.2.2, by omega⟩, fun _ => rfl⟩,
            fun _ => ⟨rfl, ?_⟩, fun hne => absurd rfl hne⟩
          exact find?_setAvail db.schedules sid (sched.available_seats - 1) sched hs

/-- C1 (witness): on the fresh 40-seat store, confirming seat 3
succeeds. -/
theorem c1_witness : (confirm_booking 7 1 3 0 exDb).1 = ConfirmResult.ok :=
  ((c1_theorem 7 1 3 0 exDb exSched exBus (by decide) (by decide)).1).2 (by decide)

/-! ### Claim C9 -/

/-- C9: assuming the store's referential integrity (every booking's
user and schedule exist and every schedule's bus exists), the ticket
page renders exactly when a booking with the requested id exists that
belongs to the caller and is still confirmed; whenever no such row
exists — the id is unknown, the booking belongs to another user, or it
was cancelled — the handler answers with the not-found redirect, which
carries no booking data. -/
theorem c9_theorem (uid bid : Nat) (db : DB) (hwf : wellFormed db) :
    ((∃ t, view_ticket uid bid db = ViewTicketResult.ok t) ↔
      ∃ b ∈ db.bookings, b.booking_id = bid ∧ b.user_id = uid ∧
        b.status = BStatus.confirmed) ∧
    ((∀ b ∈ db.bookings, ¬(b.booking_id = bid ∧ b.user_id = uid ∧
        b.status = BStatus.confirmed)) →
      view_ticket uid bid db = ViewTicketResult.notFound) := by
  constructor
  · constructor
    · rintro ⟨t, ht⟩
      unfold view_ticket at ht
      split at ht
      · exact absurd ht (by simp)
      · rename_i booking hf
        have hmem := List.mem_of_find?_eq_some hf
        have hp := List.find?_some hf
        simp only [decide_eq_true_eq] at hp
        exact ⟨booking, hmem, hp⟩
    · intro hex
      cases hv : view_ticket uid bid db with
      | ok t => exact ⟨t, rfl⟩
      | notFound =>
        exfalso
        obtain ⟨b, hbmem, hb1, hb2, hb3⟩ := hex
        unfold view_ticket at hv
        split at hv
        · rename_i hf
          rw [List.find?_eq_none] at hf
          exact hf b hbmem (by simp [hb1, hb2, hb3])
        · split at hv
          · exact absurd hv (by simp)
          · split at hv
            · exact absurd hv (by simp)
            · split at hv
              · exact absurd hv (by simp)
              · exact absurd hv (by simp)
      | backendError =>
        exfalso
        obtain ⟨hwf1, hwf2⟩ := hwf
        unfold view_ticket at hv
        split at hv
        · exact absurd hv (by simp)
        · rename_i booking hf
          have hbkmem := List.mem_of_find?_eq_some hf
          obtain ⟨⟨u, humem, huid⟩, ⟨s, hsmem, hsid⟩⟩ := hwf1 booking hbkmem
          split at hv
          · rename_i hu
            rw [List.find?_eq_none] at hu
            exact hu u humem (by simp [huid])
          · split at hv
            · rename_i hsch
              rw [List.find?_eq_none] at hsch
              exact hsch s hsmem (by simp [hsid])
            · rename_i s' hsch
              have hs'mem := List.mem_of_find?_eq_some hsch
              obtain ⟨bus, hbusmem, hbusid⟩ := hwf2 s' hs'mem
              split at hv
              · rename_i hbus
                rw [List.find?_eq_none] at hbus
                exact hbus bus hbusmem (by simp [hbusid])
              · exact absurd hv (by simp)
  · intro hnone
    have hf : db.bookings.find? (fun b =>
        decide (b.booking_id = bid ∧ b.user_id = uid ∧ b.status = BStatus.confirmed)) = none := by
      rw [List.find?_eq_none]
      intro b hbm
      simp only [decide_eq_true_eq]
      exact hnone b hbm
    unfold view_ticket
    rw [hf]

/-- C9 (witness): the confirmed booking in `ticketDb` belongs to user
2, so caller 1 asking for it gets the not-found answer. -/
theorem c9_witness : view_ticket 1 1 ticketDb = ViewTicketResult.notFound :=
  (c9_theorem 1 1 ticketDb (by decide)).2 (by decide)

/-! ### Claims C2 and C4: counterexamples -/

/-- C2 (counterexample to the claim as stated): from the consistent
one-seat store, the sequential student trace confirm, cancel, cancel
(the second cancel re-cancels the same booking) drives the counter to 2,
above the capacity 1; and a single admin create-slot with seat count -1
creates a schedule with a negative counter. -/
theorem c2_counterexample :
    consistent oneSeatDb ∧
    ¬ availInRange (run [Op.confirm 1 1 1 0, Op.cancel 1 1 200, Op.cancel 1 1 400] oneSeatDb) ∧
    ¬ availInRange (run [Op.createSlot busOne depD depT (-1)] oneSeatDb) := by decide

/-- C4 (counterexample to the claim as stated): from the consistent
two-seat store, user 1 confirms seat 1 and then seat 2 of the same
schedule; both requests succeed, so user 1 holds two simultaneous
confirmed bookings on schedule 1. -/
theorem c4_counterexample :
    consistent twoSeatDb ∧
    ¬ userSchedUnique (run [Op.confirm 1 1 1 0, Op.confirm 1 1 2 0] twoSeatDb) := by decide

/-! ### Claim C2: the amended invariant -/

/-- A booking confirmation never writes a negative counter: it only
decrements a counter it read as positive. -/
theorem confirm_nonneg (uid sid : Nat) (seat now : Int) (db : DB)
    (h0 : schedNonneg db) : schedNonneg (confirm_booking uid sid seat now db).2 := by
  unfold confirm_booking
  split
  · exact h0
  · rename_i sched hf
    split
    · exact h0
    · rename_i bus hb
      by_cases h1 : seat < 1 ∨ (bus.capacity : Int) < seat
      · rw [if_pos h1]
        exact h0
      · rw [if_neg h1]
        by_cases h2 : (∃ b ∈ db.bookings, b.schedule_id = sid ∧ b.seat_number = seat ∧
            b.status = BStatus.confirmed) ∨ sched.available_seats ≤ 0
        · rw [if_pos h2]
          exact h0
        · rw [if_neg h2]
          push_neg at h2
          intro s hsm
          obtain ⟨t, ht, rfl⟩ := List.mem_map.1 hsm
          by_cases hts : t.schedule_id = sid
          · simp only [hts, if_true, eq_self_iff_true]
            have hpos := h2.2
            omega
          · simp only [hts, if_false]
            exact h0 t ht

/-- A booking cancellation never writes a negative counter: it only
increments a non-negative counter. -/
theorem cancel_nonneg (uid bid : Nat) (now : Int) (db : DB)
    (h0 : schedNonneg db) : schedNonneg (cancel_booking uid bid now db).2 := by
  unfold cancel_booking
  split
  · exact h0
  · rename_i booking hf
    by_cases htm : now - booking.booking_time < holdPeriod
    · rw [if_pos htm]
      exact h0
    · rw [if_neg htm]
      split
      · exact h0
      · rename_i sched hsch
        intro s hsm
        obtain ⟨t, ht, rfl⟩ := List.mem_map.1 hsm
        have h0s := h0 sched (List.mem_of_find?_eq_some hsch)
        by_cases hts : t.schedule_id = booking.schedule_id
        · simp only [hts, if_true, eq_self_iff_true]
          omega
        · simp only [hts, if_false]
          exact h0 t ht

/-- Each student operation preserves non-negative counters. -/
theorem applyOp_nonneg (op : Op) (db : DB) (hop : isStudentOp op = true)
    (h0 : schedNonneg db) : schedNonneg (applyOp op db) := by
  cases op with
  | confirm uid sid seat now => exact confirm_nonneg uid sid seat now db h0
  | cancel uid bid now => exact cancel_nonneg uid bid now db h0
  | cancelSchedule sid => exact absurd hop (by simp [isStudentOp])
  | createSlot bn d t ts => exact absurd hop (by simp [isStudentOp])
  | editSchedule sid bn d t ts => exact absurd hop (by simp [isStudentOp])
  | registerUser req => exact absurd hop (by simp [isStudentOp])

/-- C2 (amended): along every sequential trace of the student booking
operations (confirm and cancel) from a store with non-negative
counters, every schedule's available-seat counter stays non-negative.
The original upper bound fails — see the counterexample: a re-cancelled
booking pushes the counter above capacity, and the admin operations
create_slot and edit_schedule write unchecked counter values. -/
theorem c2_theorem (ops : List Op) (db : DB)
    (hops : ∀ op ∈ ops, isStudentOp op = true)
    (h0 : schedNonneg db) : schedNonneg (run ops db) := by
  induction ops generalizing db with
  | nil => exact h0
  | cons op rest ih =>
    exact ih (applyOp op db) (fun o ho => hops o (List.mem_cons_of_mem _ ho))
      (applyOp_nonneg op db (hops op (List.mem_cons_self _ _)) h0)

/-- C2 (witness): after confirming the only seat, the one-seat
schedule's counter is 0, which the invariant theorem bounds below. -/
theorem c2_witness : (0 : Int) ≤ oneSeatSchedAfter.available_seats :=
  c2_theorem [Op.confirm 1 1 1 0] oneSeatDb (by decide) (by decide)
    oneSeatSchedAfter (by decide)

/-! ### Claim C4: the amended invariant -/

/-- The cancellation rewrite keeps every non-status field of a booking
row. -/
theorem cancelFn_fields (bid : Nat) (a : Booking) :
    (if a.booking_id = bid then { a with status := BStatus.cancelled } else a).schedule_id
        = a.schedule_id ∧
    (if a.booking_id = bid then { a with status := BStatus.cancelled } else a).seat_number
        = a.seat_number ∧
    (if a.booking_id = bid then { a with status := BStatus.cancelled } else a).user_id
        = a.user_id := by
  by_cases ha2 : a.booking_id = bid
  · rw [if_pos ha2]
    exact ⟨rfl, rfl, rfl⟩
  · rw [if_neg ha2]
    exact ⟨rfl, rfl, rfl⟩

/-- A booking that is confirmed after the cancellation rewrite was
confirmed before it. -/
theorem cancelFn_status (bid : Nat) (a : Booking)
    (h : (if a.booking_id = bid then { a with status := BStatus.cancelled } else a).status
        = BStatus.confirmed) :
    a.status = BStatus.confirmed := by
  by_cases ha2 : a.booking_id = bid
  · rw [if_pos ha2] at h
    simp at h
  · rw [if_neg ha2] at h
    exact h

/-- The cancellation rewrite preserves seat-uniqueness of the booking
table. -/
theorem cancelMap_noClash (bid : Nat) (l : List Booking)
    (h : List.Pairwise noClash l) :
    List.Pairwise noClash (l.map (fun b =>
      if b.booking_id = bid then { b with status := BStatus.cancelled } else b)) := by
  refine List.Pairwise.map _ ?_ h
  intro a b hab
  dsimp only
  rintro ⟨hca, hcb, hsid, hseat⟩
  refine hab ⟨cancelFn_status bid a hca, cancelFn_status bid b hcb, ?_, ?_⟩
  · rw [(cancelFn_fields bid a).1, (cancelFn_fields bid b).1] at hsid
    exact hsid
  · rw [(cancelFn_fields bid a).2.1, (cancelFn_fields bid b).2.1] at hseat
    exact hseat

/-- A booking confirmation preserves seat-uniqueness: the new row's
(schedule, seat) pair was checked to be free. -/
theorem confirm_seatUnique (uid sid : Nat) (seat now : Int) (db : DB)
    (h : seatUnique db) : seatUnique (confirm_booking uid sid seat now db).2 := by
  unfold confirm_booking
  split
  · exact h
  · rename_i sched hf
    split
    · exact h
    · rename_i bus hb
      by_cases h1 : seat < 1 ∨ (bus.capacity : Int) < seat
      · rw [if_pos h1]
        exact h
      · rw [if_neg h1]
        by_cases h2 : (∃ b ∈ db.bookings, b.schedule_id = sid ∧ b.seat_number = seat ∧
            b.status = BStatus.confirmed) ∨ sched.available_seats ≤ 0
        · rw [if_pos h2]
          exact h
        · rw [if_neg h2]
          push_neg at h2
          show List.Pairwise noClash (db.bookings ++
            [⟨db.next_booking_id, uid, sid, seat, BStatus.confirmed, now⟩])
          rw [List.pairwise_append]
          refine ⟨h, by simp, ?_⟩
          intro a ha b hbm
          rw [List.mem_singleton] at hbm
          subst hbm
          rintro ⟨hca, hcb, hsid2, hseat2⟩
          exact h2.1 a ha hsid2 hseat2 hca

/-- A booking cancellation preserves seat-uniqueness. -/
theorem cancel_seatUnique (uid bid : Nat) (now : Int) (db : DB)
    (h : seatUnique db) : seatUnique (cancel_booking uid bid now db).2 := by
  unfold cancel_booking
  split
  · exact h
  · rename_i booking hf
    by_cases htm : now - booking.booking_time < holdPeriod
    · rw [if_pos htm]
      exact h
    · rw [if_neg htm]
      split
      · exact cancelMap_noClash bid db.bookings h
      · exact cancelMap_noClash bid db.bookings h

/-- Every operation of the service preserves seat-uniqueness. -/
theorem applyOp_seatUnique (op : Op) (db : DB) (h : seatUnique db) :
    seatUnique (applyOp op db) := by
  cases op with
  | confirm uid sid seat now => exact confirm_seatUnique uid sid seat now db h
  | cancel uid bid now => exact cancel_seatUnique uid bid now db h
  | cancelSchedule sid =>
    show List.Pairwise noClash (cancel_schedule true sid db).bookings
    unfold cancel_schedule
    rw [if_pos rfl]
    exact h
  | createSlot bn d t ts =>
    show List.Pairwise noClash (create_slot true bn d t ts db).2.bookings
    unfold create_slot
    rw [if_neg (by decide : ¬((!true) = true))]
    split
    · exact h
    · split
      · exact h
      · exact h
  | editSchedule sid bn d t ts =>
    show List.Pairwise noClash (edit_schedule true sid bn d t ts db).2.bookings
    unfold edit_schedule
    rw [if_neg (by decide : ¬((!true) = true))]
    split
    · exact h
    · exact h
  | registerUser req =>
    show List.Pairwise noClash (register req db).2.bookings
    unfold register
    split_ifs <;> exact h

/-- C4 (amended): along every sequential trace of the service's
operations from a store whose confirmed bookings occupy pairwise
distinct (schedule, seat) pairs, that seat-uniqueness persists.  The
per-(user, schedule) uniqueness of the original claim does not — see
the counterexample: confirm_booking never checks whether the caller
already holds a confirmed booking on the schedule (only the book_seat
page does), so two direct confirm requests give one user two confirmed
bookings on one schedule. -/
theorem c4_theorem (ops : List Op) (db : DB) (h0 : seatUnique db) :
    seatUnique (run ops db) := by
  induction ops generalizing db with
  | nil => exact h0
  | cons op rest ih => exact ih (applyOp op db) (applyOp_seatUnique op db h0)

/-- C4 (witness): the two bookings produced by two different users
confirming the two seats of `twoSeatDb` do not clash on a seat. -/
theorem c4_witness : noClash bk1 bk2 := by
  have h := c4_theorem [Op.confirm 1 1 1 0, Op.confirm 2 1 2 0] twoSeatDb (by decide)
  have he : (run [Op.confirm 1 1 1 0, Op.confirm 2 1 2 0] twoSeatDb).bookings =
      [bk1, bk2] := by decide
  rw [seatUnique, he] at h
  exact (List.pairwise_cons.1 h).1 bk2 (by simp)

end BusApp
